import Mathlib

/-!
Verification of the RSS feed processor (src/main.py) against its
natural-language specification.

The script is embedded shallowly: external effects (the extraction
service, the LLM, the record store, the notifier) are oracles supplied as
`Except`-valued functions; the per-item pipeline `process_item` and the
main loop thread an explicit state holding the record store contents and
a trace of the calls and log lines the script emits.
-/

namespace RssParser

/-- Python exception values relevant to the script. -/
inductive Err where
  | httpError (status : Nat)
  | valueError (msg : String)
  | other (msg : String)
deriving DecidableEq, Repr

/-- One feed entry as produced by `fetch_rss`:
`{"link": entry.link, "title": entry.title, "pubDate": entry.published}`. -/
structure FeedItem where
  link : String
  title : String
  pubDate : String
deriving DecidableEq, Repr

/-- The JSON body `create_rss_record` posts to the record store. `summary`
and `markdown` are `none` when the corresponding key is absent from the
body. -/
structure RecordData where
  url : String
  feed_url : String
  published_at : String
  summary : Option String
  markdown : Option String
deriving DecidableEq, Repr

/-- Observable actions of one run: outbound calls, log lines, pauses. -/
inductive Event where
  | scrapeCall (url : String)
  | summarizeCall (text : String)
  | createCall (data : RecordData)
  | notifyCall (title : String) (body : String)
  | logError (title : String) (e : Err)
  | sleep (seconds : Nat)
  | logComplete
deriving DecidableEq, Repr

/-- The external world: results of the four effectful calls the per-item
pipeline makes. Each returns `Except Err` mirroring Python exceptions
(`raise_for_status`, API errors). -/
structure Oracle where
  scrape : String → Except Err String
  summarize : String → Except Err String
  createOk : RecordData → Except Err Unit
  notifyOk : String → String → Except Err Unit

/-- Run state: the record store contents plus the trace so far. -/
structure PState where
  store : List RecordData
  trace : List Event
deriving Repr

/-- Python truthiness of an optional string: `None` and `""` are falsy. -/
def pyTruthy : Option String → Bool
  | none => false
  | some s => !s.isEmpty

/-- Boolean prefix test on character lists. -/
def charsStart : List Char → List Char → Bool
  | [], _ => true
  | _ :: _, [] => false
  | a :: as, b :: bs => a == b && charsStart as bs

/-- Boolean substring test on character lists. -/
def charsHasSub (needle : List Char) : List Char → Bool
  | [] => charsStart needle []
  | h :: t => charsStart needle (h :: t) || charsHasSub needle t

/-- Python `needle in haystack` on strings: substring containment. -/
def strContainsSub (haystack needle : String) : Bool :=
  charsHasSub needle.data haystack.data

/-- Python `str.lower()`, character-wise ASCII lowering. -/
def lowerStr (s : String) : String :=
  String.mk (s.data.map Char.toLower)

/-- The exclusion rule of `process_item`:
`"evidence-updates" in item["link"].lower()`. -/
def isExcluded (item : FeedItem) : Bool :=
  strContainsSub (lowerStr item.link) "evidence-updates"

/-- The body built by `create_rss_record`: mandatory `url`, `feed_url`,
`published_at`; `summary`/`markdown` keys added only when truthy
(`if summary: data["summary"] = summary`). Note `feed_url` is set from
`item["link"]`, the same value as `url`. -/
def create_rss_record_data (item : FeedItem) (summary markdown : Option String) : RecordData :=
  { url := item.link
    feed_url := item.link
    published_at := item.pubDate
    summary := if pyTruthy summary then summary else none
    markdown := if pyTruthy markdown then markdown else none }

/-- `generate_summary`, as a function of the content field of the model's
first choice: `if response.choices[0].message.content is None: raise
ValueError("LLM returned no content")` and otherwise the content is
returned unchanged. -/
def generate_summary (content : Option String) : Except Err String :=
  match content with
  | none => Except.error (Err.valueError "LLM returned no content")
  | some c => Except.ok c

/-- `process_item`: the per-item pipeline. Excluded items get a minimal
record immediately; otherwise scrape, then summarize, then create the
record with both fields, then notify. Any oracle error propagates at once
(Python exception), leaving the state as accumulated so far. -/
def process_item (om : Oracle) (item : FeedItem) (s : PState) : PState × Except Err Unit :=
  if isExcluded item then
    let d := create_rss_record_data item none none
    let s1 : PState := { s with trace := s.trace ++ [Event.createCall d] }
    match om.createOk d with
    | Except.error e => (s1, Except.error e)
    | Except.ok _ => ({ s1 with store := s1.store ++ [d] }, Except.ok ())
  else
    let s1 : PState := { s with trace := s.trace ++ [Event.scrapeCall item.link] }
    match om.scrape item.link with
    | Except.error e => (s1, Except.error e)
    | Except.ok markdown =>
      let s2 : PState := { s1 with trace := s1.trace ++ [Event.summarizeCall markdown] }
      match om.summarize markdown with
      | Except.error e => (s2, Except.error e)
      | Except.ok summary =>
        let d := create_rss_record_data item (some summary) (some markdown)
        let s3 : PState := { s2 with trace := s2.trace ++ [Event.createCall d] }
        match om.createOk d with
        | Except.error e => (s3, Except.error e)
        | Except.ok _ =>
          let s4 : PState := { s3 with store := s3.store ++ [d] }
          let s5 : PState := { s4 with trace := s4.trace ++ [Event.notifyCall "New Summary" summary] }
          match om.notifyOk "New Summary" summary with
          | Except.error e => (s5, Except.error e)
          | Except.ok _ => (s5, Except.ok ())

/-- The filter step of `main`:
`[item for item in items if item["link"] not in existing_urls]`. -/
def new_items (items : List FeedItem) (existing_urls : List String) : List FeedItem :=
  items.filter (fun item => !(existing_urls.contains item.link))

/-- The per-item loop of `main`: `try: process_item; sleep(1)` then
`except Exception as e: print error with the item title`; iterate. -/
def mainLoop (om : Oracle) (items : List FeedItem) (s : PState) : PState :=
  match items with
  | [] => s
  | item :: rest =>
    let pr := process_item om item s
    match pr.2 with
    | Except.ok _ =>
        mainLoop om rest { pr.1 with trace := pr.1.trace ++ [Event.sleep 1] }
    | Except.error e =>
        mainLoop om rest { pr.1 with trace := pr.1.trace ++ [Event.logError item.title e] }

/-- The tail of `main` after authentication and the two fetches: filter
to new items, process each, then print the completion line. -/
def runMain (om : Oracle) (existing_urls : List String) (items : List FeedItem)
    (store0 : List RecordData) : PState :=
  let s := mainLoop om (new_items items existing_urls) { store := store0, trace := [] }
  { s with trace := s.trace ++ [Event.logComplete] }

/-- The trace events contributed by one item, run from an empty trace. -/
def itemEvents (om : Oracle) (item : FeedItem) : List Event :=
  (process_item om item { store := [], trace := [] }).1.trace

/-- The records contributed to the store by one item. -/
def itemRecords (om : Oracle) (item : FeedItem) : List RecordData :=
  (process_item om item { store := [], trace := [] }).1.store

/-- The outcome (normal return or exception) of one item. -/
def itemResult (om : Oracle) (item : FeedItem) : Except Err Unit :=
  (process_item om item { store := [], trace := [] }).2

/-- The loop-level events for one item: its pipeline events followed by
the sleep (on success) or the error log line (on exception). -/
def itemSegment (om : Oracle) (item : FeedItem) : List Event :=
  itemEvents om item ++
    (match itemResult om item with
     | Except.ok _ => [Event.sleep 1]
     | Except.error e => [Event.logError item.title e])

/-- The seven required settings, in the order `validate_env_vars` lists
them, paired with their values from the environment. -/
structure Env where
  POCKETBASE_URL : Option String
  PB_EMAIL : Option String
  PB_PASSWORD : Option String
  OPENAI_API_KEY : Option String
  READER_API_URL : Option String
  READER_BEARER_TOKEN : Option String
  PUSHBULLET_TOKEN : Option String
deriving DecidableEq, Repr

/-- The `required_vars` dict of `validate_env_vars`, in insertion order. -/
def required_vars (env : Env) : List (String × Option String) :=
  [("POCKETBASE_URL", env.POCKETBASE_URL),
   ("PB_EMAIL", env.PB_EMAIL),
   ("PB_PASSWORD", env.PB_PASSWORD),
   ("OPENAI_API_KEY", env.OPENAI_API_KEY),
   ("READER_API_URL", env.READER_API_URL),
   ("READER_BEARER_TOKEN", env.READER_BEARER_TOKEN),
   ("PUSHBULLET_TOKEN", env.PUSHBULLET_TOKEN)]

/-- `missing_vars = [name for name, value in required_vars.items() if not value]`. -/
def missing_vars (env : Env) : List String :=
  ((required_vars env).filter (fun p => !pyTruthy p.2)).map Prod.fst

/-- `validate_env_vars`: raise `ValueError` naming every missing variable
in one message when any is missing, succeed otherwise. -/
def validate_env_vars (env : Env) : Except Err Unit :=
  if (missing_vars env).isEmpty then
    Except.ok ()
  else
    Except.error (Err.valueError
      ("Missing required environment variables: " ++ String.intercalate ", " (missing_vars env)))

/-- An outbound HTTP request as the script assembles it. -/
structure HttpRequest where
  method : String
  url : String
  params : List (String × String)
  headers : List (String × String)
deriving DecidableEq, Repr

/-- The request `fetch_existing_urls` sends: GET on the records
collection, sorted, page-capped, `Authorization` header set to the bare
token. -/
def fetch_existing_urls_request (pocketbase_url token : String) : HttpRequest :=
  { method := "GET"
    url := pocketbase_url ++ "/api/collections/rss_feeds/records"
    params := [("sort", "-created"), ("perPage", "50")]
    headers := [("Authorization", token)] }

/-- The request `create_rss_record` sends: POST on the records
collection, `Authorization` header set to the bare token. -/
def create_rss_record_request (pocketbase_url token : String) : HttpRequest :=
  { method := "POST"
    url := pocketbase_url ++ "/api/collections/rss_feeds/records"
    params := []
    headers := [("Authorization", token)] }

/-- The request `scrape_markdown` sends, for contrast: its token is
Bearer-prefixed. -/
def scrape_markdown_request (reader_api_url bearer_token url : String) : HttpRequest :=
  { method := "GET"
    url := reader_api_url ++ "/" ++ url
    params := []
    headers := [("Authorization", "Bearer " ++ bearer_token), ("X-Respond-With", "markdown")] }

/-- Header lookup by name. -/
def headerValue (r : HttpRequest) (name : String) : Option String :=
  (r.headers.filter (fun p => p.1 == name)).head? |>.map Prod.snd

/-! ### Concrete worlds used to evaluate the theorems -/

/-- A world where every external call succeeds with non-empty content. -/
def okOracle : Oracle :=
  { scrape := fun _ => Except.ok "md"
    summarize := fun _ => Except.ok "sum"
    createOk := fun _ => Except.ok ()
    notifyOk := fun _ _ => Except.ok () }

/-- A world where the extraction service is down. -/
def failOracle : Oracle :=
  { scrape := fun _ => Except.error (Err.httpError 500)
    summarize := fun _ => Except.ok "sum"
    createOk := fun _ => Except.ok ()
    notifyOk := fun _ _ => Except.ok () }

/-- A world where extraction succeeds but yields an empty body. -/
def emptyScrapeOracle : Oracle :=
  { scrape := fun _ => Except.ok ""
    summarize := fun _ => Except.ok "s"
    createOk := fun _ => Except.ok ()
    notifyOk := fun _ _ => Except.ok () }

/-- A world where only the notification call fails. -/
def notifyFailOracle : Oracle :=
  { scrape := fun _ => Except.ok "md"
    summarize := fun _ => Except.ok "sum"
    createOk := fun _ => Except.ok ()
    notifyOk := fun _ _ => Except.error (Err.httpError 503) }

/-- An ordinary article item (no exclusion marker in the link). -/
def artItem : FeedItem :=
  { link := "https://www.thebottomline.org.uk/summaries/icm/article-1/"
    title := "Article One"
    pubDate := "Mon, 01 Jan 2024" }

/-- An item whose link carries the exclusion marker (mixed case). -/
def exclItem : FeedItem :=
  { link := "https://www.thebottomline.org.uk/Evidence-Updates/week-1/"
    title := "Weekly Update"
    pubDate := "Tue, 02 Jan 2024" }

/-- An environment where every setting is set but one is empty. -/
def presentEmptyEnv : Env :=
  { POCKETBASE_URL := some "http://pb.local"
    PB_EMAIL := some ""
    PB_PASSWORD := some "pw"
    OPENAI_API_KEY := some "k"
    READER_API_URL := some "http://reader.local"
    READER_BEARER_TOKEN := some "t"
    PUSHBULLET_TOKEN := some "p" }

/-- An environment with one setting unset and the rest non-empty. -/
def missingEnv : Env :=
  { POCKETBASE_URL := none
    PB_EMAIL := some "a@b.c"
    PB_PASSWORD := some "pw"
    OPENAI_API_KEY := some "k"
    READER_API_URL := some "http://reader.local"
    READER_BEARER_TOKEN := some "t"
    PUSHBULLET_TOKEN := some "p" }

/-! ### Structural lemmas about the per-item pipeline and the loop -/

/-- `process_item` only appends to the incoming store and trace; what it
appends and its outcome do not depend on the incoming state. -/
theorem process_item_shift (om : Oracle) (item : FeedItem) (s : PState) :
    process_item om item s =
      ({ store := s.store ++ itemRecords om item,
         trace := s.trace ++ itemEvents om item },
       itemResult om item) := by
  cases hx : isExcluded item with
  | false =>
    cases h1 : om.scrape item.link with
    | error e =>
      simp [process_item, itemRecords, itemEvents, itemResult, hx, h1]
    | ok m =>
      cases h2 : om.summarize m with
      | error e =>
        simp [process_item, itemRecords, itemEvents, itemResult, hx, h1, h2]
      | ok sum =>
        cases h3 : om.createOk (create_rss_record_data item (some sum) (some m)) with
        | error e =>
          simp [process_item, itemRecords, itemEvents, itemResult, hx, h1, h2, h3]
        | ok u =>
          cases h4 : om.notifyOk "New Summary" sum with
          | error e =>
            simp [process_item, itemRecords, itemEvents, itemResult, hx, h1, h2, h3, h4]
          | ok v =>
            simp [process_item, itemRecords, itemEvents, itemResult, hx, h1, h2, h3, h4]
  | true =>
    cases h3 : om.createOk (create_rss_record_data item none none) with
    | error e =>
      simp [process_item, itemRecords, itemEvents, itemResult, hx, h3]
    | ok u =>
      simp [process_item, itemRecords, itemEvents, itemResult, hx, h3]

/-- The loop trace is the incoming trace followed by each item's segment,
in feed order: one item's outcome never affects whether the later items
run. -/
theorem mainLoop_trace (om : Oracle) (items : List FeedItem) (s : PState) :
    (mainLoop om items s).trace = s.trace ++ (items.map (itemSegment om)).flatten := by
  induction items generalizing s with
  | nil => simp [mainLoop]
  | cons item rest ih =>
    rw [mainLoop, process_item_shift]
    cases hr : itemResult om item with
    | error e =>
      simp only [hr]
      rw [ih]
      simp [itemSegment, hr]
    | ok u =>
      simp only [hr]
      rw [ih]
      simp [itemSegment, hr]

/-- The pipeline itself never pauses: sleeps come only from the loop. -/
theorem sleep_notMem_itemEvents (om : Oracle) (item : FeedItem) (n : Nat) :
    Event.sleep n ∉ itemEvents om item := by
  cases hx : isExcluded item with
  | false =>
    cases h1 : om.scrape item.link with
    | error e => simp [itemEvents, process_item, hx, h1]
    | ok m =>
      cases h2 : om.summarize m with
      | error e => simp [itemEvents, process_item, hx, h1, h2]
      | ok sum =>
        cases h3 : om.createOk (create_rss_record_data item (some sum) (some m)) with
        | error e => simp [itemEvents, process_item, hx, h1, h2, h3]
        | ok u =>
          cases h4 : om.notifyOk "New Summary" sum with
          | error e => simp [itemEvents, process_item, hx, h1, h2, h3, h4]
          | ok v => simp [itemEvents, process_item, hx, h1, h2, h3, h4]
  | true =>
    cases h3 : om.createOk (create_rss_record_data item none none) with
    | error e => simp [itemEvents, process_item, hx, h3]
    | ok u => simp [itemEvents, process_item, hx, h3]

/-- An excluded item contributes exactly the one minimal create call,
whatever the store answers. -/
theorem itemEvents_excluded (om : Oracle) (item : FeedItem)
    (hx : isExcluded item = true) :
    itemEvents om item = [Event.createCall (create_rss_record_data item none none)] := by
  cases h3 : om.createOk (create_rss_record_data item none none) with
  | error e => simp [itemEvents, process_item, hx, h3]
  | ok u => simp [itemEvents, process_item, hx, h3]

/-- When extraction raises, the item stops at the scrape call. -/
theorem itemEvents_scrape_error (om : Oracle) (item : FeedItem) (e : Err)
    (hx : isExcluded item = false) (h1 : om.scrape item.link = Except.error e) :
    itemEvents om item = [Event.scrapeCall item.link] := by
  simp [itemEvents, process_item, hx, h1]

/-- When summarization raises, the item stops after the summarize call. -/
theorem itemEvents_summarize_error (om : Oracle) (item : FeedItem) (m : String) (e : Err)
    (hx : isExcluded item = false) (h1 : om.scrape item.link = Except.ok m)
    (h2 : om.summarize m = Except.error e) :
    itemEvents om item = [Event.scrapeCall item.link, Event.summarizeCall m] := by
  simp [itemEvents, process_item, hx, h1, h2]

/-- When both steps return, the record-create call follows them, and the
notification call is attempted only after a successful create. -/
theorem itemEvents_both_ok (om : Oracle) (item : FeedItem) (m sum : String)
    (hx : isExcluded item = false) (h1 : om.scrape item.link = Except.ok m)
    (h2 : om.summarize m = Except.ok sum) :
    itemEvents om item =
      [Event.scrapeCall item.link, Event.summarizeCall m,
       Event.createCall (create_rss_record_data item (some sum) (some m))] ++
      (match om.createOk (create_rss_record_data item (some sum) (some m)) with
       | Except.error _ => []
       | Except.ok _ => [Event.notifyCall "New Summary" sum]) := by
  cases h3 : om.createOk (create_rss_record_data item (some sum) (some m)) with
  | error e => simp [itemEvents, process_item, hx, h1, h2, h3]
  | ok u =>
    cases h4 : om.notifyOk "New Summary" sum with
    | error e => simp [itemEvents, process_item, hx, h1, h2, h3, h4]
    | ok v => simp [itemEvents, process_item, hx, h1, h2, h3, h4]

/-! ### Claim theorems -/

/-- Claim C3: for an item whose link contains the exclusion marker
(case-insensitively), the pipeline makes no extraction, summarization or
notification call, and makes exactly one record-create call, whose body
carries only the mandatory fields (summary and markdown absent). -/
theorem c3_excluded_item_minimal_record (om : Oracle) (item : FeedItem)
    (hx : isExcluded item = true) :
    itemEvents om item = [Event.createCall (create_rss_record_data item none none)] ∧
    (create_rss_record_data item none none).summary = none ∧
    (create_rss_record_data item none none).markdown = none ∧
    (∀ u, Event.scrapeCall u ∉ itemEvents om item) ∧
    (∀ t, Event.summarizeCall t ∉ itemEvents om item) ∧
    (∀ t b, Event.notifyCall t b ∉ itemEvents om item) := by
  have he := itemEvents_excluded om item hx
  refine ⟨he, by simp [create_rss_record_data, pyTruthy],
    by simp [create_rss_record_data, pyTruthy], ?_, ?_, ?_⟩
  · intro u
    simp [he]
  · intro t
    simp [he]
  · intro t b
    simp [he]

/-- Witness for C3 at a concrete excluded item. -/
theorem c3_witness :
    isExcluded exclItem = true ∧
    itemEvents okOracle exclItem =
      [Event.createCall (create_rss_record_data exclItem none none)] :=
  ⟨by decide, (c3_excluded_item_minimal_record okOracle exclItem (by decide)).1⟩

/-- Claim C4: the filtered new-item sequence is exactly the subsequence
of the feed keeping the items whose link is outside the existing-urls
snapshot: it is a sublist (order preserved), membership is exactly
feed-membership plus absence from the snapshot, and multiplicities are
preserved for kept items and zero for dropped ones. -/
theorem c4_new_items_exact_filter (items : List FeedItem) (existing_urls : List String) :
    List.Sublist (new_items items existing_urls) items ∧
    (∀ item, item ∈ new_items items existing_urls ↔
        item ∈ items ∧ item.link ∉ existing_urls) ∧
    (∀ item, (new_items items existing_urls).count item =
        if item.link ∈ existing_urls then 0 else items.count item) := by
  refine ⟨List.filter_sublist items, ?_, ?_⟩
  · intro item
    simp [new_items, List.mem_filter]
  · intro item
    by_cases h : item.link ∈ existing_urls
    · simp only [h, if_pos]
      apply List.count_eq_zero.mpr
      intro hm
      rw [new_items, List.mem_filter] at hm
      simp [h] at hm
    · rw [if_neg h]
      apply List.count_filter
      simp [h]

/-- Witness for C4 at a concrete feed and snapshot. -/
theorem c4_witness :
    artItem ∈ new_items [artItem, exclItem] [exclItem.link] ∧
    exclItem ∉ new_items [artItem, exclItem] [exclItem.link] := by
  constructor
  · exact ((c4_new_items_exact_filter [artItem, exclItem] [exclItem.link]).2.1 artItem).mpr
      ⟨by decide, by decide⟩
  · intro hm
    have := ((c4_new_items_exact_filter [artItem, exclItem] [exclItem.link]).2.1 exclItem).mp hm
    exact this.2 (by decide)

/-- Claim C6: the summarizer raises its explicit error (ValueError, "LLM
returned no content") exactly when the model's message content is null,
and every string it returns is exactly the model's content — a
no-content response is never silently turned into an empty string. -/
theorem c6_empty_llm_response_raises (content : Option String) :
    (∀ e, generate_summary content = Except.error e ↔
        content = none ∧ e = Err.valueError "LLM returned no content") ∧
    (∀ s, generate_summary content = Except.ok s ↔ content = some s) := by
  cases content with
  | none =>
    constructor
    · intro e
      simp [generate_summary]
      exact eq_comm
    · intro s
      simp [generate_summary]
  | some c =>
    constructor
    · intro e
      simp [generate_summary]
    · intro s
      simp [generate_summary]

/-- Witness for C6 at a null content and at a concrete string. -/
theorem c6_witness :
    generate_summary none = Except.error (Err.valueError "LLM returned no content") ∧
    generate_summary (some "sum") = Except.ok "sum" :=
  ⟨((c6_empty_llm_response_raises none).1 (Err.valueError "LLM returned no content")).mpr
      ⟨rfl, rfl⟩,
   ((c6_empty_llm_response_raises (some "sum")).2 "sum").mpr rfl⟩

/-- Claim C8: both authenticated record-store calls (the list query and
the record create) put the bare token in the Authorization header — the
value is the token itself, never the Bearer-prefixed form. -/
theorem c8_raw_authorization_header (pocketbase_url token : String) :
    headerValue (fetch_existing_urls_request pocketbase_url token) "Authorization"
        = some token ∧
    headerValue (create_rss_record_request pocketbase_url token) "Authorization"
        = some token ∧
    headerValue (fetch_existing_urls_request pocketbase_url token) "Authorization"
        ≠ some ("Bearer " ++ token) ∧
    headerValue (create_rss_record_request pocketbase_url token) "Authorization"
        ≠ some ("Bearer " ++ token) := by
  have hv1 : headerValue (fetch_existing_urls_request pocketbase_url token) "Authorization"
      = some token := by
    simp [headerValue, fetch_existing_urls_request]
  have hv2 : headerValue (create_rss_record_request pocketbase_url token) "Authorization"
      = some token := by
    simp [headerValue, create_rss_record_request]
  have hne : token ≠ "Bearer " ++ token := by
    intro h
    have hlen := congrArg String.length h
    rw [String.length_append] at hlen
    have h7 : ("Bearer " : String).length = 7 := by decide
    omega
  refine ⟨hv1, hv2, ?_, ?_⟩
  · rw [hv1]
    intro h
    exact hne (Option.some.inj h)
  · rw [hv2]
    intro h
    exact hne (Option.some.inj h)

/-- Witness for C8 at a concrete base URL and token. -/
theorem c8_witness :
    headerValue (fetch_existing_urls_request "http://pb.local" "tok") "Authorization"
      = some "tok" :=
  (c8_raw_authorization_header "http://pb.local" "tok").1

/-- Counterexample to claim C1 as stated: extraction and summarization
both succeed (extraction returns the empty string), yet the record is
created without a markdown field — so a record with non-empty summary
and markdown is not created even though both steps succeeded. -/
theorem c1_counterexample :
    isExcluded artItem = false ∧
    emptyScrapeOracle.scrape artItem.link = Except.ok "" ∧
    emptyScrapeOracle.summarize "" = Except.ok "s" ∧
    itemEvents emptyScrapeOracle artItem =
      [Event.scrapeCall artItem.link, Event.summarizeCall "",
       Event.createCall
         { url := artItem.link, feed_url := artItem.link,
           published_at := artItem.pubDate, summary := some "s", markdown := none },
       Event.notifyCall "New Summary" "s"] ∧
    (itemRecords emptyScrapeOracle artItem).all (fun d => d.markdown == none) = true := by
  refine ⟨by decide, rfl, rfl, by decide, by decide⟩

/-- Claim C1 (amended): for a non-excluded item, a record-create call
whose body carries a non-empty summary and a non-empty markdown is made
iff extraction and summarization both returned, each with a non-empty
string; and every record-create call for such an item comes only after
both steps have returned — if either raises, no record-create call is
made for the item in that run. -/
theorem c1_record_iff_both_steps_returned (om : Oracle) (item : FeedItem)
    (hx : isExcluded item = false) :
    ((∃ d, Event.createCall d ∈ itemEvents om item ∧
        (∃ a, d.summary = some a ∧ a ≠ "") ∧ (∃ b, d.markdown = some b ∧ b ≠ "")) ↔
      (∃ m sum, om.scrape item.link = Except.ok m ∧ m ≠ "" ∧
        om.summarize m = Except.ok sum ∧ sum ≠ "")) ∧
    (∀ d, Event.createCall d ∈ itemEvents om item →
      ∃ m sum, om.scrape item.link = Except.ok m ∧ om.summarize m = Except.ok sum ∧
        d = create_rss_record_data item (some sum) (some m)) := by
  cases h1 : om.scrape item.link with
  | error e =>
    have he := itemEvents_scrape_error om item e hx h1
    constructor
    · constructor
      · rintro ⟨d, hd, _⟩
        rw [he] at hd
        simp at hd
      · rintro ⟨m, sum, hm, _⟩
        simp at hm
    · intro d hd
      rw [he] at hd
      simp at hd
  | ok m =>
    cases h2 : om.summarize m with
    | error e =>
      have he := itemEvents_summarize_error om item m e hx h1 h2
      constructor
      · constructor
        · rintro ⟨d, hd, _⟩
          rw [he] at hd
          simp at hd
        · rintro ⟨m1, sum1, hm1, hmne, hs1, hsne⟩
          injection hm1 with hme
          subst hme
          rw [h2] at hs1
          simp at hs1
      · intro d hd
        rw [he] at hd
        simp at hd
    | ok sum =>
      have he := itemEvents_both_ok om item m sum hx h1 h2
      have hmem : ∀ d, Event.createCall d ∈ itemEvents om item ↔
          d = create_rss_record_data item (some sum) (some m) := by
        intro d
        rw [he]
        cases h3 : om.createOk (create_rss_record_data item (some sum) (some m)) with
        | error e1 => simp
        | ok u => simp
      constructor
      · constructor
        · rintro ⟨d, hd, ⟨a, ha, hane⟩, ⟨b, hb, hbne⟩⟩
          rw [hmem d] at hd
          subst hd
          refine ⟨m, sum, rfl, ?_, h2, ?_⟩
          · intro hme
            subst hme
            have hn : (create_rss_record_data item (some sum) (some "")).markdown
                = none := rfl
            rw [hn] at hb
            exact Option.noConfusion hb
          · intro hse
            subst hse
            have hn : (create_rss_record_data item (some "") (some m)).summary
                = none := rfl
            rw [hn] at ha
            exact Option.noConfusion ha
        · rintro ⟨m1, sum1, hm1, hmne, hs1, hsne⟩
          injection hm1 with hme
          subst hme
          rw [h2] at hs1
          injection hs1 with hse
          subst hse
          have hiem : m.isEmpty = false := by
            cases hie2 : m.isEmpty with
            | false => rfl
            | true => exact absurd ((String.isEmpty_iff m).mp hie2) hmne
          have hies : sum.isEmpty = false := by
            cases hie2 : sum.isEmpty with
            | false => rfl
            | true => exact absurd ((String.isEmpty_iff sum).mp hie2) hsne
          refine ⟨create_rss_record_data item (some sum) (some m),
            (hmem _).mpr rfl, ⟨sum, ?_, hsne⟩, ⟨m, ?_, hmne⟩⟩
          · simp [create_rss_record_data, pyTruthy, hies]
          · simp [create_rss_record_data, pyTruthy, hiem]
      · intro d hd
        exact ⟨m, sum, rfl, h2, (hmem d).mp hd⟩

/-- Witness for the amended C1 in a fully successful world. -/
theorem c1_witness :
    ∃ d, Event.createCall d ∈ itemEvents okOracle artItem ∧
      (∃ a, d.summary = some a ∧ a ≠ "") ∧ (∃ b, d.markdown = some b ∧ b ≠ "") :=
  (c1_record_iff_both_steps_returned okOracle artItem (by decide)).1.mpr
    ⟨"md", "sum", rfl, by decide, rfl, by decide⟩

/-- Claim C2: the run trace is exactly the concatenation, in feed order,
of every filtered item's segment followed by the completion line — no
item's failure aborts the run — and an item whose processing raises gets
an error log line carrying its title. -/
theorem c2_per_item_errors_logged (om : Oracle) (existing_urls : List String)
    (items : List FeedItem) (store0 : List RecordData) :
    (runMain om existing_urls items store0).trace =
      ((new_items items existing_urls).map (itemSegment om)).flatten
        ++ [Event.logComplete] ∧
    (∀ item, item ∈ new_items items existing_urls →
      ∀ e, itemResult om item = Except.error e →
        Event.logError item.title e ∈ (runMain om existing_urls items store0).trace) := by
  have ht : (runMain om existing_urls items store0).trace =
      ((new_items items existing_urls).map (itemSegment om)).flatten
        ++ [Event.logComplete] := by
    simp [runMain, mainLoop_trace]
  refine ⟨ht, ?_⟩
  intro item hm e he
  rw [ht]
  apply List.mem_append.mpr
  left
  rw [List.mem_flatten]
  refine ⟨itemSegment om item, List.mem_map_of_mem _ hm, ?_⟩
  simp [itemSegment, he]

/-- Witness for C2: a failing extraction is logged with the title and
the run still reports completion. -/
theorem c2_witness :
    Event.logError "Article One" (Err.httpError 500)
      ∈ (runMain failOracle [] [artItem] []).trace :=
  (c2_per_item_errors_logged failOracle [] [artItem] []).2 artItem (by decide)
    (Err.httpError 500) rfl

/-- Counterexample to claim C5 as stated: when an item's processing
raises, no 1-second pause is executed for it — the sleep sits inside the
try block after the processing call, so the exception skips it. -/
theorem c5_counterexample :
    itemResult failOracle artItem = Except.error (Err.httpError 500) ∧
    (runMain failOracle [] [artItem] []).trace =
      [Event.scrapeCall artItem.link,
       Event.logError artItem.title (Err.httpError 500), Event.logComplete] ∧
    (∀ n, Event.sleep n ∉ (runMain failOracle [] [artItem] []).trace) := by
  refine ⟨rfl, by decide, ?_⟩
  intro n
  have ht : (runMain failOracle [] [artItem] []).trace =
      [Event.scrapeCall artItem.link,
       Event.logError artItem.title (Err.httpError 500), Event.logComplete] := by
    decide
  rw [ht]
  simp

/-- Claim C5 (amended): processing one item, the loop pauses one second
exactly when the item's processing returned normally; the pause follows
the item's pipeline events, and when processing raises the pause is
skipped and the error log line takes its place. -/
theorem c5_sleep_only_after_success (om : Oracle) (item : FeedItem)
    (store0 : List RecordData) :
    (mainLoop om [item] { store := store0, trace := [] }).trace = itemSegment om item ∧
    (Event.sleep 1 ∈ itemSegment om item ↔ itemResult om item = Except.ok ()) ∧
    (itemResult om item = Except.ok () →
        itemSegment om item = itemEvents om item ++ [Event.sleep 1]) ∧
    (∀ e, itemResult om item = Except.error e →
        itemSegment om item = itemEvents om item ++ [Event.logError item.title e]) := by
  have htr : (mainLoop om [item] { store := store0, trace := [] }).trace
      = itemSegment om item := by
    have h := mainLoop_trace om [item] { store := store0, trace := [] }
    simpa using h
  refine ⟨htr, ?_, ?_, ?_⟩
  · constructor
    · intro hmem
      cases hr : itemResult om item with
      | ok u => rfl
      | error e =>
        exfalso
        have hseg : itemSegment om item
            = itemEvents om item ++ [Event.logError item.title e] := by
          simp [itemSegment, hr]
        rw [hseg] at hmem
        rcases List.mem_append.mp hmem with h | h
        · exact sleep_notMem_itemEvents om item 1 h
        · simp at h
    · intro hr
      simp [itemSegment, hr]
  · intro hr
    simp [itemSegment, hr]
  · intro e hr
    simp [itemSegment, hr]

/-- Witness for the amended C5 in a fully successful world. -/
theorem c5_witness :
    itemSegment okOracle artItem = itemEvents okOracle artItem ++ [Event.sleep 1] :=
  (c5_sleep_only_after_success okOracle artItem []).2.2.1 rfl

/-- Counterexample to claim C7 as stated: an environment in which all
seven settings are present (each carries a value) but one value is the
empty string still fails validation — presence alone does not make
startup succeed. -/
theorem c7_counterexample :
    ((required_vars presentEmptyEnv).all (fun p => p.2.isSome)) = true ∧
    validate_env_vars presentEmptyEnv =
      Except.error (Err.valueError "Missing required environment variables: PB_EMAIL") := by
  constructor
  · decide
  · rfl

/-- Claim C7 (amended): startup validation succeeds iff every one of the
seven required settings is set to a non-empty string; otherwise it fails
with one ValueError whose message enumerates exactly the names of the
settings that are unset or empty, in declaration order. -/
theorem c7_missing_settings_enumerated (env : Env) :
    (validate_env_vars env = Except.ok () ↔ missing_vars env = []) ∧
    (∀ n, n ∈ missing_vars env ↔
        ∃ v, (n, v) ∈ required_vars env ∧ (v = none ∨ v = some "")) ∧
    (∀ e, validate_env_vars env = Except.error e ↔
        (missing_vars env ≠ [] ∧
         e = Err.valueError ("Missing required environment variables: " ++
              String.intercalate ", " (missing_vars env)))) := by
  have hfalsy : ∀ v : Option String, (!pyTruthy v) = true ↔ (v = none ∨ v = some "") := by
    intro v
    cases v with
    | none => simp [pyTruthy]
    | some s => simp [pyTruthy, String.isEmpty_iff]
  refine ⟨?_, ?_, ?_⟩
  · by_cases h : (missing_vars env).isEmpty
    · rw [validate_env_vars, if_pos h]
      simp [List.isEmpty_iff.mp h]
    · rw [validate_env_vars, if_neg h]
      constructor
      · intro hh
        simp at hh
      · intro hh
        rw [hh] at h
        simp at h
  · intro n
    rw [missing_vars]
    simp only [List.mem_map, List.mem_filter]
    constructor
    · rintro ⟨p, ⟨hp, hf⟩, rfl⟩
      refine ⟨p.2, ?_, (hfalsy p.2).mp hf⟩
      simpa using hp
    · rintro ⟨v, hv, hfal⟩
      exact ⟨(n, v), ⟨hv, (hfalsy v).mpr hfal⟩, rfl⟩
  · intro e
    by_cases h : (missing_vars env).isEmpty
    · rw [validate_env_vars, if_pos h]
      constructor
      · intro hh
        simp at hh
      · rintro ⟨hne, _⟩
        exact absurd (List.isEmpty_iff.mp h) hne
    · rw [validate_env_vars, if_neg h]
      constructor
      · intro hh
        refine ⟨?_, (Except.error.inj hh).symm⟩
        intro hnil
        rw [hnil] at h
        simp at h
      · rintro ⟨hne, rfl⟩
        rfl

/-- Witness for the amended C7: an unset variable is enumerated. -/
theorem c7_witness :
    "POCKETBASE_URL" ∈ missing_vars missingEnv :=
  ((c7_missing_settings_enumerated missingEnv).2.1 "POCKETBASE_URL").mpr
    ⟨none, by decide, Or.inl rfl⟩

/-- Claim C9: for a non-excluded item whose extraction, summarization
and record create all succeed and whose notification then fails, the
notification call sits after the record-create call in the trace, the
item's exception is the notification's, and the store still holds
exactly the created record appended to the prior contents — the failed
notification neither removes nor modifies it. -/
theorem c9_notify_failure_keeps_record (om : Oracle) (item : FeedItem)
    (store0 : List RecordData) (m sum : String) (e : Err)
    (hx : isExcluded item = false)
    (h1 : om.scrape item.link = Except.ok m)
    (h2 : om.summarize m = Except.ok sum)
    (h3 : om.createOk (create_rss_record_data item (some sum) (some m)) = Except.ok ())
    (h4 : om.notifyOk "New Summary" sum = Except.error e) :
    (process_item om item { store := store0, trace := [] }).1.store
        = store0 ++ [create_rss_record_data item (some sum) (some m)] ∧
    (process_item om item { store := store0, trace := [] }).2 = Except.error e ∧
    (process_item om item { store := store0, trace := [] }).1.trace
        = [Event.scrapeCall item.link, Event.summarizeCall m,
           Event.createCall (create_rss_record_data item (some sum) (some m)),
           Event.notifyCall "New Summary" sum] := by
  refine ⟨?_, ?_, ?_⟩ <;> simp [process_item, hx, h1, h2, h3, h4]

/-- Witness for C9 in a world where only the notification fails. -/
theorem c9_witness :
    (process_item notifyFailOracle artItem { store := [], trace := [] }).1.store
        = [] ++ [create_rss_record_data artItem (some "sum") (some "md")] :=
  (c9_notify_failure_keeps_record notifyFailOracle artItem [] "md" "sum"
    (Err.httpError 503) (by decide) rfl rfl rfl rfl).1

/-- Claim C10: every record body sets feed_url to the item's own link,
the same value as url — for minimal and full records alike, never the
monitored feed's URL. -/
theorem c10_feed_url_equals_url (item : FeedItem) (summary markdown : Option String) :
    (create_rss_record_data item summary markdown).feed_url
        = (create_rss_record_data item summary markdown).url ∧
    (create_rss_record_data item summary markdown).feed_url = item.link := by
  simp [create_rss_record_data]

end RssParser
